import Mathlib

/-!
Verification development for the column type inference and coercion engine of
`src/app.py` (an interactive data-analysis dashboard).

Modelling conventions:
* floating-point cell values are modelled as rationals (`ℚ`);
* a pandas column is a `Col`: `obj` (object dtype: missing / string / number
  values), `floats` (float64, `none` = NaN) or `dates` (datetime64, `none` = NaT);
* the pandas library boundary (`pd.to_numeric` and `pd.to_datetime` applied to a
  single string) is a parameter of the engine (`np`, `dp` below); concrete
  instances `nparsePd` and `dparseISO` model the behaviour of those parsers on
  the string shapes exercised by the concrete theorems;
* `pd.to_datetime` applied to numeric values interprets them as epoch offsets
  (unit `ns`); the embedding keeps the numeric value as the timestamp encoding;
* the source compares counts against the float product `0.7 * len(df)`; the
  embedding uses the exact rational comparison `10 * count > 7 * len`.  The two
  can differ only when `0.7 * len` rounds across the integer `7 * len / 10`;
  no theorem below depends on behaviour at such a boundary.
-/

/-- Character-list version of checking that `needle` occurs at the front of the
second list. -/
def matchFront : List Char → List Char → Bool
  | [], _ => true
  | _ :: _, [] => false
  | a :: as, b :: bs => a = b && matchFront as bs

/-- Character-list version of Python's substring test `needle in hay`. -/
def occursIn (needle : List Char) : List Char → Bool
  | [] => needle.isEmpty
  | b :: bs => matchFront needle (b :: bs) || occursIn needle bs

/-- Python's substring test `needle in hay` on strings. -/
def containsStr (needle hay : String) : Bool :=
  occursIn needle.data hay.data

/-- Python `str.strip()` on a character list: whitespace removed from both
ends. -/
def stripChars (cs : List Char) : List Char :=
  ((cs.dropWhile Char.isWhitespace).reverse.dropWhile Char.isWhitespace).reverse

/-- Python `str.strip()`. -/
def pyStrip (s : String) : String :=
  String.mk (stripChars s.data)

/-- Python `str.upper()`. -/
def pyUpper (s : String) : String :=
  String.mk (s.data.map Char.toUpper)

/-- Python `str.lower()`. -/
def pyLower (s : String) : String :=
  String.mk (s.data.map Char.toLower)

/-- Translated from `str.replace(',', '.')` in the Excel numeric-conversion
loop of `src/app.py`. -/
def commaToDot (cs : List Char) : List Char :=
  cs.map (fun c => if c = ',' then '.' else c)

/-- Translated from the regular expression `^\d*\.?\d+$` used by the Excel
numeric-conversion loop of `src/app.py`: optional digits, an optional single
dot, then at least one digit. -/
def numericPat (cs : List Char) : Bool :=
  let ds := cs.takeWhile Char.isDigit
  let rest := cs.dropWhile Char.isDigit
  match rest with
  | [] => !ds.isEmpty
  | '.' :: frac => !frac.isEmpty && frac.all Char.isDigit
  | _ => false

/-- Translated from the date-looking regular expression (digits, then `/` or
`-`, then digits, searched anywhere in the cell) used by the Excel
numeric-conversion loop of `src/app.py` to skip date-looking columns. -/
def dateLikeSeq : List Char → Bool
  | a :: b :: c :: rest =>
      (a.isDigit && (b = '/' || b = '-') && c.isDigit) || dateLikeSeq (b :: c :: rest)
  | _ => false

/-- Numeric value of a list of digit characters. -/
def digitsToNat (cs : List Char) : Nat :=
  cs.foldl (fun a c => 10 * a + (c.toNat - 48)) 0

/-- Value of a decimal literal `digits[.digits]` as a rational; matches
`pd.to_numeric` on a string accepted by `numericPat`. -/
def decimalVal (cs : List Char) : ℚ :=
  let ds := cs.takeWhile Char.isDigit
  let rest := cs.dropWhile Char.isDigit
  match rest with
  | _ :: frac => (digitsToNat ds : ℚ) + (digitsToNat frac : ℚ) / (10 : ℚ) ^ frac.length
  | [] => (digitsToNat ds : ℚ)

/-- A value held in a pandas object-dtype column: missing (NaN), a string, or a
Python float (present after the Excel loop's per-cell `df.loc` assignment). -/
inductive PyVal
  | na
  | str (s : String)
  | num (q : ℚ)
deriving DecidableEq

/-- A pandas column: object dtype, float64 (`none` = NaN) or datetime64
(`none` = NaT, a timestamp encoded by a rational). -/
inductive Col
  | obj (cells : List PyVal)
  | floats (cells : List (Option ℚ))
  | dates (cells : List (Option ℚ))
deriving DecidableEq

/-- Number of rows of a column. -/
def colLen : Col → Nat
  | Col.obj cs => cs.length
  | Col.floats cs => cs.length
  | Col.dates cs => cs.length

/-- Translated from `.notna().sum()`. -/
def countSome (l : List (Option ℚ)) : Nat :=
  (l.filter Option.isSome).length

/-- Bool test for a float64 column. -/
def isFloats : Col → Bool
  | Col.floats _ => true
  | _ => false

/-- Bool test for a datetime64 column. -/
def isDates : Col → Bool
  | Col.dates _ => true
  | _ => false

/-- Elementwise `pd.to_numeric(·, errors='coerce')` on one object cell, the
string case delegated to the parser parameter `np`. -/
def toNumericVal (np : String → Option ℚ) : PyVal → Option ℚ
  | PyVal.na => none
  | PyVal.str s => np s
  | PyVal.num q => some q

/-- Elementwise `pd.to_datetime(·, errors='coerce')` on one object cell, the
string case delegated to the parser parameter `dp`; numeric values are
interpreted as epoch offsets. -/
def toDatetimeVal (dp : String → Option ℚ) : PyVal → Option ℚ
  | PyVal.na => none
  | PyVal.str s => dp s
  | PyVal.num q => some q

/-- Translated from `pd.to_datetime(df[col], errors='coerce')` on a whole
column: object cells go through `toDatetimeVal`; a float64 column is read as
epoch offsets; a datetime64 column is unchanged. -/
def toDatetimeCol (dp : String → Option ℚ) : Col → List (Option ℚ)
  | Col.obj cs => cs.map (toDatetimeVal dp)
  | Col.floats cs => cs
  | Col.dates cs => cs

/-- Translated from the per-column body of `detect_column_types` in
`src/app.py`: first try `pd.to_datetime` and convert when the count of
non-missing parses exceeds `0.7 * len(df)`; then, only if the column still has
object dtype, try `pd.to_numeric` with the same threshold. -/
def detectCol (dp np : String → Option ℚ) (c : Col) : Col :=
  let n := colLen c
  let dts := toDatetimeCol dp c
  let c1 := if 10 * countSome dts > 7 * n then Col.dates dts else c
  match c1 with
  | Col.obj cs =>
      let nums := cs.map (toNumericVal np)
      if 10 * countSome nums > 7 * n then Col.floats nums else Col.obj cs
  | other => other

/-- Translated from `detect_column_types` in `src/app.py`: the per-column
detection applied to every column of the frame. -/
def detect_column_types (dp np : String → Option ℚ) (t : List (String × Col)) :
    List (String × Col) :=
  t.map (fun p => (p.1, detectCol dp np p.2))

/-- Modelled behaviour of the pandas boundary `pd.to_numeric(·,
errors='coerce')` on one string: surrounding whitespace and an optional sign
are tolerated around a plain decimal literal; a comma is not a decimal
separator, so strings such as `"2,5"` fail. -/
def nparsePd (s : String) : Option ℚ :=
  match stripChars s.data with
  | '+' :: r => if numericPat r then some (decimalVal r) else none
  | '-' :: r => if numericPat r then some (-decimalVal r) else none
  | r => if numericPat r then some (decimalVal r) else none

/-- Modelled behaviour of the pandas boundary `pd.to_datetime(·,
errors='coerce')` on one string, for the shapes exercised below: the compact
form `YYYYMMDD` (eight digits) and the ISO form `YYYY-MM-DD` parse, encoded as
the number `YYYYMMDD`; short digit strings, free text and decimal literals are
rejected, as pandas rejects them. -/
def dparseISO (s : String) : Option ℚ :=
  match stripChars s.data with
  | [a, b, c, d, '-', e, f, '-', g, h] =>
      if [a, b, c, d, e, f, g, h].all Char.isDigit then
        some ((digitsToNat [a, b, c, d, e, f, g, h] : ℚ))
      else none
  | t =>
      if t.length = 8 && t.all Char.isDigit then some ((digitsToNat t : ℚ))
      else none

/-- Translated from the column-name skip of the Excel numeric-conversion loop
in `src/app.py`: exact names NO, ID, BCS, KATEGORI, or a name containing
TANGGAL, TGL, WAKTU, JAM, TIME or DATE, case-insensitively. -/
def denylisted (col : String) : Bool :=
  let u := pyUpper col
  u == "NO" || u == "ID" || u == "BCS" || u == "KATEGORI" ||
  containsStr "TANGGAL" u || containsStr "TGL" u || containsStr "WAKTU" u ||
  containsStr "JAM" u || containsStr "TIME" u || containsStr "DATE" u

/-- Translated from the per-column body of the Excel numeric-conversion loop in
`src/app.py`: skip denylisted names; strip the cells; skip the column when any
cell looks like a date (digits, `/` or `-`, digits); otherwise, when some cell matches the
numeric pattern, convert exactly the matching cells (comma normalized to dot),
leaving the other cells as their original strings. -/
def excelLoopCol (name : String) (cells : List String) : List PyVal :=
  if denylisted name then cells.map PyVal.str
  else
    let cleaned := cells.map pyStrip
    if cleaned.any (fun s => dateLikeSeq s.data) then cells.map PyVal.str
    else if cleaned.any (fun s => numericPat (commaToDot s.data)) then
      (cells.zip cleaned).map (fun p =>
        if numericPat (commaToDot p.2.data) then PyVal.num (decimalVal (commaToDot p.2.data))
        else PyVal.str p.1)
    else cells.map PyVal.str

/-- Composition run by the Excel upload path on one column: the per-cell
conversion loop followed by `detect_column_types`. -/
def excelCol (dp np : String → Option ℚ) (name : String) (cells : List String) : Col :=
  detectCol dp np (Col.obj (excelLoopCol name cells))

/-- Translated from the category detection of the Excel header merge in
`src/app.py`: a header whose upper-cased text contains one of the five category
words. -/
def catWord (h : String) : Bool :=
  ["BIOKIMIA", "KINERJA", "REPRODUKSI", "DARAH", "PRODUKTIF"].any
    (fun w => containsStr w (pyUpper h))

/-- Translated from the name choice of the Excel header merge in `src/app.py`:
the sub header when the stripped main header is a category, is `'nan'`, equals
the sub header, or is empty; otherwise the main header. -/
def chooseName (cats : List String) (m s : String) : String :=
  if m ∈ cats then s
  else if m = "nan" ∨ m = s ∨ m = "" then s
  else m

/-- Translated from the final column-name guard of the Excel header merge in
`src/app.py`: keep the chosen name unless it is `'nan'` or empty, in which case
use the synthetic `Column_{i}`. -/
def mergeName (cats : List String) (i : Nat) (m s : String) : String :=
  let col := chooseName cats (pyStrip m) (pyStrip s)
  if col ≠ "nan" ∧ col ≠ "" then col else "Column_" ++ toString i

/-- Translated from the Excel two-row header merge of `src/app.py`: categories
are the raw first-row headers containing a category word; each column name is
merged from the two stripped headers at its index. -/
def mergeHeaders (h1 h2 : List String) : List String :=
  let cats := h1.filter catWord
  (List.enum (h1.zip h2)).map (fun p => mergeName cats p.1 p.2.1 p.2.2)

/-- Translated from the marketing ROI branch of `src/app.py`: the metric is
computed and shown only under the guard `investment > 0`; otherwise nothing is
computed (`none`). -/
def roiBranch (revenue investment : ℚ) : Option ℚ :=
  if investment > 0 then some ((revenue - investment) / investment * 100) else none

/-- Translated from the marketing CTR branch of `src/app.py`: the metric is
computed and shown only under the guard `impressions > 0`; otherwise nothing is
computed (`none`). -/
def ctrBranch (clicks impressions : Nat) : Option ℚ :=
  if impressions > 0 then some ((clicks : ℚ) / (impressions : ℚ) * 100) else none

/-- Filter mode chosen by the call site of `filter_dataframe` from the column's
dtype. -/
inductive FilterKind
  | numeric
  | datetime
  | categorical
deriving DecidableEq

/-- Values returned by the interactive widgets read inside `filter_dataframe`
(slider range, date range, multiselect, text query). -/
structure FilterWidgets where
  lo : ℚ
  hi : ℚ
  dateRange : List ℚ
  selected : List PyVal
  textQuery : String

/-- Column lookup `df[column]`; `none` models the KeyError raised on a missing
column. -/
def findCol (t : List (String × Col)) (name : String) : Option Col :=
  (t.find? (fun p => p.1 == name)).map (fun p => p.2)

/-- Boolean-mask row selection `df[mask]` on one list of cells. -/
def maskRows {α : Type} (mask : List Bool) (xs : List α) : List α :=
  ((mask.zip xs).filter (fun p => p.1)).map (fun p => p.2)

/-- Boolean-mask row selection on one column. -/
def maskCol (mask : List Bool) : Col → Col
  | Col.obj cs => Col.obj (maskRows mask cs)
  | Col.floats cs => Col.floats (maskRows mask cs)
  | Col.dates cs => Col.dates (maskRows mask cs)

/-- Boolean-mask row selection `df[mask]` on the whole frame. -/
def maskTable (mask : List Bool) (t : List (String × Col)) : List (String × Col) :=
  t.map (fun p => (p.1, maskCol mask p.2))

/-- Python `str(value)` of an object cell (`astype(str)` maps NaN to `'nan'`). -/
def pyStr : PyVal → String
  | PyVal.na => "nan"
  | PyVal.str s => s
  | PyVal.num q => toString q

/-- Translated from `df[column].unique()`: the distinct cell values in first
occurrence order. -/
def distinctVals (l : List PyVal) : List PyVal :=
  l.foldl (fun acc v => if v ∈ acc then acc else acc ++ [v]) []

/-- Translated from the body of `filter_dataframe` in `src/app.py`, with the
operations that raise modelled as `Except.error`: the numeric branch needs a
float64 column (otherwise `float(df[column].min())` or the comparison raises),
the datetime branch needs a datetime64 column (otherwise the `.dt` accessor
raises), the categorical branch works on object columns; a missing column name
raises KeyError. -/
def tryFilter (t : List (String × Col)) (column : String) (fk : FilterKind)
    (w : FilterWidgets) : Except String (List (String × Col)) :=
  match findCol t column with
  | none => Except.error "KeyError"
  | some c =>
    match fk with
    | FilterKind.numeric =>
      match c with
      | Col.floats cs =>
          Except.ok (maskTable (cs.map (fun o => match o with
            | some q => decide (w.lo ≤ q) && decide (q ≤ w.hi)
            | none => false)) t)
      | _ => Except.error "could not convert value to float"
    | FilterKind.datetime =>
      match c with
      | Col.dates cs =>
          if w.dateRange.length = 2 then
            Except.ok (maskTable (cs.map (fun o => match o with
              | some q => decide (w.dateRange.getD 0 0 ≤ q) && decide (q ≤ w.dateRange.getD 1 0)
              | none => false)) t)
          else Except.ok t
      | _ => Except.error "dt accessor only valid with datetime values"
    | FilterKind.categorical =>
      match c with
      | Col.obj cs =>
          if (distinctVals cs).length ≤ 10 then
            if w.selected.isEmpty then Except.ok t
            else Except.ok (maskTable (cs.map (fun v => decide (v ∈ w.selected))) t)
          else
            if w.textQuery = "" then Except.ok t
            else Except.ok (maskTable (cs.map (fun v => match v with
              | PyVal.na => false
              | v => containsStr (pyUpper w.textQuery) (pyUpper (pyStr v)))) t)
      | _ => Except.error "filter not applicable"

/-- Translated from `filter_dataframe` in `src/app.py`: the whole body runs
inside `try`, and the `except` arm reports the message and returns the input
frame unchanged. -/
def filter_dataframe (t : List (String × Col)) (column : String) (fk : FilterKind)
    (w : FilterWidgets) : List (String × Col) :=
  match tryFilter t column fk w with
  | Except.ok r => r
  | Except.error _ => t

/-- Sort direction chosen by the radio widget inside `sort_dataframe`. -/
inductive SortOrder
  | asc
  | desc
deriving DecidableEq

/-- Rational comparison used as a sort key, direction-aware. -/
def qle (asc : Bool) (a b : ℚ) : Bool :=
  if asc then decide (a ≤ b) else decide (b ≤ a)

/-- String comparison used as a sort key, direction-aware. -/
def strle (asc : Bool) (a b : String) : Bool :=
  if asc then (compare a b).isLE else (compare b a).isLE

/-- Missing-last ordering on optional keys, matching `na_position='last'`. -/
def optLE {α : Type} (le : α → α → Bool) : Option α → Option α → Bool
  | none, none => true
  | none, some _ => false
  | some _, none => true
  | some a, some b => le a b

/-- Translated from the text key `x.str.lower()`: lower-cased strings, NaN for
non-string values. -/
def lowerKey : PyVal → Option String
  | PyVal.str s => some (pyLower s)
  | _ => none

/-- Stable sort of the row indices `0..n-1` by a Boolean order. -/
def sortIdx (n : Nat) (le : Nat → Nat → Bool) : List Nat :=
  (List.range n).mergeSort le

/-- Row permutation of one list of cells. -/
def permute {α : Type} (idx : List Nat) (cs : List α) (dflt : α) : List α :=
  idx.map (fun i => cs.getD i dflt)

/-- Row permutation of one column. -/
def permuteCol (idx : List Nat) : Col → Col
  | Col.obj cs => Col.obj (permute idx cs PyVal.na)
  | Col.floats cs => Col.floats (permute idx cs none)
  | Col.dates cs => Col.dates (permute idx cs none)

/-- Translated from the body of `sort_dataframe` in `src/app.py`: sort the rows
of the frame by the chosen column with missing values last, the key being the
timestamp for datetime64 columns, the numeric value for float64 columns
(`pd.to_numeric` is the identity there), and the lower-cased string otherwise;
a missing column name raises KeyError. -/
def trySort (t : List (String × Col)) (column : String) (ord : SortOrder) :
    Except String (List (String × Col)) :=
  match findCol t column with
  | none => Except.error "KeyError"
  | some c =>
    let asc := ord = SortOrder.asc
    let n := colLen c
    let le : Nat → Nat → Bool :=
      match c with
      | Col.dates cs => fun i j => optLE (qle asc) (cs.getD i none) (cs.getD j none)
      | Col.floats cs => fun i j => optLE (qle asc) (cs.getD i none) (cs.getD j none)
      | Col.obj cs => fun i j =>
          optLE (strle asc) (lowerKey (cs.getD i PyVal.na)) (lowerKey (cs.getD j PyVal.na))
    Except.ok (t.map (fun p => (p.1, permuteCol (sortIdx n le) p.2)))

/-- Translated from `sort_dataframe` in `src/app.py`: the whole body runs
inside `try`, and the `except` arm reports the message and returns the input
frame unchanged. -/
def sort_dataframe (t : List (String × Col)) (column : String) (ord : SortOrder) :
    List (String × Col) :=
  match trySort t column ord with
  | Except.ok r => r
  | Except.error _ => t

/-- Follows the claim's words (C1): the non-empty cells of a column. -/
def specNonEmpty (cells : List PyVal) : List PyVal :=
  cells.filter (fun v => match v with
    | PyVal.na => false
    | PyVal.str s => !(s == "")
    | PyVal.num _ => true)

/-- Follows the claim's words (C1): at least 70% of the non-empty cells parse
under the numeric pattern (digits with an optional single `.` or `,` decimal
separator, the `,` normalized to `.`). -/
def specNumericCond (cells : List PyVal) : Bool :=
  let ne := specNonEmpty cells
  let ok := ne.filter (fun v => match v with
    | PyVal.str s => numericPat (commaToDot s.data)
    | PyVal.num _ => true
    | PyVal.na => false)
  decide (10 * ok.length ≥ 7 * ne.length)

/-- Follows the claim's words (C8): sub-header alone when the main header is
blank, equal to the sub-header, or a recognized category label; otherwise
`"{main header} - {sub header}"`; `Column_{i}` when both headers are blank. -/
def specClaimName (cats : List String) (i : Nat) (m s : String) : String :=
  if pyStrip m = "" ∧ pyStrip s = "" then "Column_" ++ toString i
  else if pyStrip m = "" ∨ pyStrip m = pyStrip s ∨ pyStrip m ∈ cats then pyStrip s
  else pyStrip m ++ " - " ++ pyStrip s

/-- Follows the amended wording of C8: the chosen name is the sub-header when
the stripped main header is blank, `'nan'`, equal to the sub-header, or a
category label, and the main header alone otherwise; the synthetic name is used
when the chosen name is blank or `'nan'`. -/
def specAmendedChoose (cats : List String) (m s : String) : String :=
  if m = "" ∨ m = "nan" ∨ m = s ∨ m ∈ cats then s else m

/-- Follows the amended wording of C8, final guard included. -/
def specAmendedName (cats : List String) (i : Nat) (m s : String) : String :=
  let col := specAmendedChoose cats (pyStrip m) (pyStrip s)
  if col = "" ∨ col = "nan" then "Column_" ++ toString i else col

/-- C9 (counterexample): with investment `0` the ROI branch computes nothing at
`revenue = 100` (it does not return `0`), and with impressions `0` the CTR
branch computes nothing at `clicks = 5`. -/
theorem roi_ctr_zero_not_zero :
    roiBranch 100 0 = none ∧ roiBranch 100 0 ≠ some 0 ∧
    ctrBranch 5 0 = none ∧ ctrBranch 5 0 ≠ some 0 := by
  refine ⟨rfl, ?_, rfl, ?_⟩ <;> decide

/-- C9 (amended): for every revenue and click count, the ROI and CTR branches
with a zero denominator skip the computation entirely (no value, no division,
no exception), rather than returning `0`. -/
theorem roi_ctr_zero_skipped (revenue : ℚ) (clicks : Nat) :
    roiBranch revenue 0 = none ∧ ctrBranch clicks 0 = none := by
  constructor <;> simp [roiBranch, ctrBranch]

/-- C7 (amended): the Excel numeric-conversion loop coerces the column
`["1", "2,5", "3.1"]` (under a name that is not denylisted) to the
floating-point values `[1.0, 2.5, 3.1]` — an intermediate result only, since
the `detect_column_types` pass that follows converts those floats further (see
the counterexample below). -/
theorem excel_loop_comma_column :
    excelLoopCol "Nilai" ["1", "2,5", "3.1"] =
      [PyVal.num 1, PyVal.num (5 / 2 : ℚ), PyVal.num (31 / 10 : ℚ)] := by
  simp +decide [excelLoopCol, pyStrip, stripChars, commaToDot, decimalVal, digitsToNat]
  norm_num

/-- C7 (counterexample): the column `["1", "2,5", "3.1"]` never ends as the
claimed floating-point column. On the Excel upload path, the
`detect_column_types` pass that runs right after the conversion loop
reinterprets the three float cells as epoch offsets (all of them non-missing,
above the threshold) and converts the column to timestamps, not floats; and on
the direct path without the loop, `detect_column_types` leaves the column
as its original strings, because only 2 of its 3 cells parse numerically. -/
theorem comma_column_not_floats :
    isFloats (excelCol dparseISO nparsePd "Nilai" ["1", "2,5", "3.1"]) = false
    ∧ isDates (excelCol dparseISO nparsePd "Nilai" ["1", "2,5", "3.1"]) = true
    ∧ detectCol dparseISO nparsePd (Col.obj [PyVal.str "1", PyVal.str "2,5", PyVal.str "3.1"])
        = Col.obj [PyVal.str "1", PyVal.str "2,5", PyVal.str "3.1"] := by
  refine ⟨?_, ?_, ?_⟩ <;> decide

/-- C1 (counterexample): for the column of ten string cells
`["1","2","3","4","5","6","","","",""]`, 100% of the non-empty cells match the
claim's numeric pattern (so the claim requires floating-point coercion), yet
`detect_column_types` leaves the column uncoerced, because its threshold counts
all ten cells, empty ones included. -/
theorem numeric_threshold_base_refuted :
    specNumericCond
      [PyVal.str "1", PyVal.str "2", PyVal.str "3", PyVal.str "4", PyVal.str "5",
       PyVal.str "6", PyVal.str "", PyVal.str "", PyVal.str "", PyVal.str ""] = true
    ∧ isFloats (detectCol dparseISO nparsePd (Col.obj
      [PyVal.str "1", PyVal.str "2", PyVal.str "3", PyVal.str "4", PyVal.str "5",
       PyVal.str "6", PyVal.str "", PyVal.str "", PyVal.str "", PyVal.str ""])) = false := by
  constructor <;> decide

/-- C2 (counterexample): every cell of the column
`["20210101","20210102","20210103"]` parses numerically, so under the claim the
numeric attempt comes first and the column must end up floating-point; but
`detect_column_types` attempts the timestamp parse first and the column ends up
a timestamp column. -/
theorem numeric_first_refuted :
    (["20210101", "20210102", "20210103"].all (fun s => (nparsePd s).isSome)) = true
    ∧ isDates (detectCol dparseISO nparsePd (Col.obj
        [PyVal.str "20210101", PyVal.str "20210102", PyVal.str "20210103"])) = true
    ∧ isFloats (detectCol dparseISO nparsePd (Col.obj
        [PyVal.str "20210101", PyVal.str "20210102", PyVal.str "20210103"])) = false := by
  refine ⟨?_, ?_, ?_⟩ <;> decide

/-- C3 (counterexample): for the single-column table with cells
`["10","20","30"]`, one application of the coercion coerces the column to
floating point, and a second application converts those floats to epoch
timestamps, so `coerce (coerce T) ≠ coerce T`. -/
theorem coerce_not_idempotent :
    detectCol dparseISO nparsePd
        (detectCol dparseISO nparsePd (Col.obj [PyVal.str "10", PyVal.str "20", PyVal.str "30"]))
      ≠ detectCol dparseISO nparsePd (Col.obj [PyVal.str "10", PyVal.str "20", PyVal.str "30"]) := by
  decide

/-- C5 (counterexample): the column `["T0","1","2","3","4"]` contains the
marker token `"T0"`, yet `detect_column_types` coerces it to numeric (more than
70% of its cells parse), with the `"T0"` cell becoming missing — there is no
marker-token exemption in the code. -/
theorem marker_T0_coerced :
    detectCol dparseISO nparsePd (Col.obj
        [PyVal.str "T0", PyVal.str "1", PyVal.str "2", PyVal.str "3", PyVal.str "4"]) =
      Col.floats [none, some 1, some 2, some 3, some 4] := by
  decide

/-- C6 (counterexample): the column named `"Tanggal Lahir"` with cells
`["1","2","3"]` is skipped by the Excel numeric-conversion loop, but the
`detect_column_types` pass that follows ignores column names and coerces it to
numeric anyway. -/
theorem denylisted_name_still_coerced :
    excelCol dparseISO nparsePd "Tanggal Lahir" ["1", "2", "3"] =
      Col.floats [some 1, some 2, some 3] := by
  decide

/-- C8 (counterexample): for main header `"Berat"` and sub header `"Kg"`
(neither blank, not equal, not a category), the claim requires the merged name
`"Berat - Kg"`, but the header merge of `src/app.py` produces the main header
alone, `"Berat"`. -/
theorem merge_otherwise_refuted :
    mergeHeaders ["Berat"] ["Kg"] = ["Berat"]
    ∧ specClaimName [] 0 "Berat" "Kg" = "Berat - Kg"
    ∧ ("Berat" : String) ≠ "Berat - Kg" := by
  refine ⟨?_, ?_, ?_⟩ <;> decide

/-- Computation lemma: `detectCol` on an object column first converts to
timestamps over the strict all-rows threshold, otherwise to floats over the
same threshold, otherwise leaves the column unchanged. -/
theorem detectCol_obj (dp np : String → Option ℚ) (cells : List PyVal) :
    detectCol dp np (Col.obj cells) =
      if 10 * countSome (cells.map (toDatetimeVal dp)) > 7 * cells.length then
        Col.dates (cells.map (toDatetimeVal dp))
      else if 10 * countSome (cells.map (toNumericVal np)) > 7 * cells.length then
        Col.floats (cells.map (toNumericVal np))
      else Col.obj cells := by
  unfold detectCol
  by_cases hd : 10 * countSome (cells.map (toDatetimeVal dp)) > 7 * cells.length <;>
    by_cases hn : 10 * countSome (cells.map (toNumericVal np)) > 7 * cells.length <;>
      simp [toDatetimeCol, colLen, hd, hn]

/-- Computation lemma: `detectCol` on a float64 column either reinterprets it
as epoch timestamps (when enough cells are non-missing) or leaves it unchanged;
the numeric branch never runs because the dtype is no longer object. -/
theorem detectCol_floats (dp np : String → Option ℚ) (cs : List (Option ℚ)) :
    detectCol dp np (Col.floats cs) =
      if 10 * countSome cs > 7 * cs.length then Col.dates cs else Col.floats cs := by
  unfold detectCol
  by_cases hd : 10 * countSome cs > 7 * cs.length <;> simp [toDatetimeCol, colLen, hd]

/-- Computation lemma: `detectCol` leaves a datetime64 column unchanged. -/
theorem detectCol_dates (dp np : String → Option ℚ) (cs : List (Option ℚ)) :
    detectCol dp np (Col.dates cs) = Col.dates cs := by
  unfold detectCol
  by_cases hd : 10 * countSome cs > 7 * cs.length <;> simp [toDatetimeCol, colLen, hd]

/-- C1 (amended): `detect_column_types` coerces an object (string) column to
floating point exactly when the timestamp attempt did not already convert it
and strictly more than 70% of all its cells — missing and empty cells counted
in the denominator — parse under the pandas numeric parser (which does not
normalize `,` to `.`); in a coerced column every cell that fails to parse
becomes missing. -/
theorem detect_numeric_characterization (dp np : String → Option ℚ) (cells : List PyVal) :
    detectCol dp np (Col.obj cells) = Col.floats (cells.map (toNumericVal np)) ↔
      ¬ 10 * countSome (cells.map (toDatetimeVal dp)) > 7 * cells.length
        ∧ 10 * countSome (cells.map (toNumericVal np)) > 7 * cells.length := by
  rw [detectCol_obj]
  by_cases hd : 10 * countSome (cells.map (toDatetimeVal dp)) > 7 * cells.length <;>
    by_cases hn : 10 * countSome (cells.map (toNumericVal np)) > 7 * cells.length <;>
      simp [hd, hn]

/-- C2 (amended): `detect_column_types` attempts the timestamp parse first and
coerces an object column to timestamps exactly when strictly more than 70% of
all its cells parse as timestamps (regardless of how many would parse
numerically — the numeric attempt only runs on columns still of object dtype);
non-parsing cells are left missing in the converted column. -/
theorem detect_date_characterization (dp np : String → Option ℚ) (cells : List PyVal) :
    detectCol dp np (Col.obj cells) = Col.dates (cells.map (toDatetimeVal dp)) ↔
      10 * countSome (cells.map (toDatetimeVal dp)) > 7 * cells.length := by
  rw [detectCol_obj]
  by_cases hd : 10 * countSome (cells.map (toDatetimeVal dp)) > 7 * cells.length <;>
    by_cases hn : 10 * countSome (cells.map (toNumericVal np)) > 7 * cells.length <;>
      simp [hd, hn]

/-- C3 (amended): the coercion is idempotent on every column it does not leave
as floating point (text and timestamp results are fixed points), but not in
general — a coerced numeric column is converted to timestamps by a second
application (see the counterexample above). -/
theorem detect_idempotent_when_not_numeric (dp np : String → Option ℚ) (c : Col)
    (h : isFloats (detectCol dp np c) = false) :
    detectCol dp np (detectCol dp np c) = detectCol dp np c := by
  cases c with
  | obj cells =>
      rw [detectCol_obj] at h ⊢
      by_cases hd : 10 * countSome (cells.map (toDatetimeVal dp)) > 7 * cells.length
      · rw [if_pos hd, detectCol_dates]
      · by_cases hn : 10 * countSome (cells.map (toNumericVal np)) > 7 * cells.length
        · rw [if_neg hd, if_pos hn] at h
          simp [isFloats] at h
        · rw [if_neg hd, if_neg hn]
          rw [detectCol_obj, if_neg hd, if_neg hn]
  | floats cs =>
      rw [detectCol_floats] at h ⊢
      by_cases hd : 10 * countSome cs > 7 * cs.length
      · rw [if_pos hd, detectCol_dates]
      · rw [if_neg hd] at h
        simp [isFloats] at h
  | dates cs =>
      rw [detectCol_dates, detectCol_dates]

/-- C3 (witness): a two-cell text column is left as text, and on it the second
coercion changes nothing. -/
theorem detect_idempotent_when_not_numeric_witness :
    isFloats (detectCol dparseISO nparsePd (Col.obj [PyVal.str "a", PyVal.str "b"])) = false
    ∧ detectCol dparseISO nparsePd
        (detectCol dparseISO nparsePd (Col.obj [PyVal.str "a", PyVal.str "b"]))
      = detectCol dparseISO nparsePd (Col.obj [PyVal.str "a", PyVal.str "b"]) :=
  ⟨by decide, detect_idempotent_when_not_numeric dparseISO nparsePd _ (by decide)⟩

/-- Row count is preserved by the per-column detection. -/
theorem colLen_detectCol (dp np : String → Option ℚ) (c : Col) :
    colLen (detectCol dp np c) = colLen c := by
  cases c with
  | obj cells =>
      rw [detectCol_obj]
      by_cases hd : 10 * countSome (cells.map (toDatetimeVal dp)) > 7 * cells.length <;>
        by_cases hn : 10 * countSome (cells.map (toNumericVal np)) > 7 * cells.length <;>
          simp [hd, hn, colLen]
  | floats cs =>
      rw [detectCol_floats]
      by_cases hd : 10 * countSome cs > 7 * cs.length <;> simp [hd, colLen]
  | dates cs => rw [detectCol_dates]

/-- C4: the whole-table coercion `detect_column_types` is a total function (the
per-column parse failures are absorbed into missing cells or an unchanged
column, never an error), and it returns a table with exactly the same column
names in the same order and exactly the same number of rows in every column; it
drops no rows. -/
theorem detect_preserves_shape (dp np : String → Option ℚ) (t : List (String × Col)) :
    (detect_column_types dp np t).map Prod.fst = t.map Prod.fst
    ∧ (detect_column_types dp np t).map (fun p => colLen p.2)
        = t.map (fun p => colLen p.2) := by
  constructor <;>
    simp [detect_column_types, List.map_map, Function.comp_def, colLen_detectCol]

/-- C5 (amended): there is no marker-token exemption — for any column whose
cells contain the literal string `"T0"`, whenever the timestamp branch does not
fire and strictly more than 70% of all cells parse numerically, the column is
coerced to floating point like any other, and the `"T0"` cell (which the
numeric parser rejects) becomes missing. -/
theorem marker_no_exemption (dp np : String → Option ℚ) (cells : List PyVal)
    (_hmem : PyVal.str "T0" ∈ cells)
    (hT0 : np "T0" = none)
    (hd : ¬ 10 * countSome (cells.map (toDatetimeVal dp)) > 7 * cells.length)
    (hn : 10 * countSome (cells.map (toNumericVal np)) > 7 * cells.length) :
    detectCol dp np (Col.obj cells) = Col.floats (cells.map (toNumericVal np))
    ∧ toNumericVal np (PyVal.str "T0") = none := by
  constructor
  · rw [detectCol_obj, if_neg hd, if_pos hn]
  · simp [toNumericVal, hT0]

/-- C5 (witness): the marker column `["T0","1","2","3","4"]` satisfies the
hypotheses and is coerced to numeric with the marker cell missing. -/
theorem marker_no_exemption_witness :
    PyVal.str "T0" ∈ [PyVal.str "T0", PyVal.str "1", PyVal.str "2", PyVal.str "3", PyVal.str "4"]
    ∧ nparsePd "T0" = none
    ∧ (detectCol dparseISO nparsePd (Col.obj
          [PyVal.str "T0", PyVal.str "1", PyVal.str "2", PyVal.str "3", PyVal.str "4"])
        = Col.floats ([PyVal.str "T0", PyVal.str "1", PyVal.str "2", PyVal.str "3",
            PyVal.str "4"].map (toNumericVal nparsePd))
      ∧ toNumericVal nparsePd (PyVal.str "T0") = none) :=
  ⟨by decide, by decide,
    marker_no_exemption dparseISO nparsePd _ (by decide) (by decide) (by decide) (by decide)⟩

/-- C6 (amended): the identifier/date denylist governs only the Excel
numeric-conversion loop — a denylisted column passes through that loop with
every cell kept as its original string (the later `detect_column_types` pass
ignores column names, as the counterexample shows). -/
theorem excelLoop_skips_denylisted (name : String) (cells : List String)
    (h : denylisted name = true) :
    excelLoopCol name cells = cells.map PyVal.str := by
  unfold excelLoopCol
  simp [h]

/-- C6 (witness): the denylisted name `"Tanggal Lahir"` is skipped by the Excel
loop. -/
theorem excelLoop_skips_denylisted_witness :
    denylisted "Tanggal Lahir" = true
    ∧ excelLoopCol "Tanggal Lahir" ["1", "2", "3"] = ["1", "2", "3"].map PyVal.str :=
  ⟨by decide, excelLoop_skips_denylisted _ _ (by decide)⟩

/-- The two name choosers agree. -/
theorem choose_eq (cats : List String) (m s : String) :
    chooseName cats m s = specAmendedChoose cats m s := by
  unfold chooseName specAmendedChoose
  by_cases h1 : m ∈ cats <;> by_cases h2 : m = "nan" <;> by_cases h3 : m = s <;>
    by_cases h4 : m = "" <;> simp [h1, h2, h3, h4]

/-- The two final guards agree. -/
theorem final_guard (i : Nat) (col : String) :
    (if col ≠ "nan" ∧ col ≠ "" then col else "Column_" ++ toString i) =
      (if col = "" ∨ col = "nan" then "Column_" ++ toString i else col) := by
  by_cases h1 : col = "nan" <;> by_cases h2 : col = "" <;> simp [h1, h2]

/-- C8 (amended): the merged column name is the sub-header when the stripped
main header is blank, `'nan'`, equal to the sub-header or a recognized category
label, and otherwise the main header alone (not `"{main} - {sub}"`); the
synthetic `Column_{i}` is used when the chosen name is blank or `'nan'`. The
three examples of the claim hold: `"BIOKIMIA"`/`"Glukosa"` gives `"Glukosa"`,
`"Tanggal"`/`"Tanggal"` gives `"Tanggal"`, blank/`"Umur"` gives `"Umur"`. -/
theorem merge_main_alone :
    (∀ (cats : List String) (i : Nat) (m s : String),
        mergeName cats i m s = specAmendedName cats i m s)
    ∧ mergeHeaders ["BIOKIMIA", "Tanggal", ""] ["Glukosa", "Tanggal", "Umur"] =
        ["Glukosa", "Tanggal", "Umur"] := by
  constructor
  · intro cats i m s
    simp only [mergeName, specAmendedName, choose_eq, final_guard]
  · decide

/-- C10: whenever the body of `filter_dataframe` or of `sort_dataframe` raises,
the enclosing `try`/`except` returns the input table unchanged — the error is
absorbed into a message and the table is not partially modified. -/
theorem filter_sort_error_unchanged :
    (∀ (t : List (String × Col)) (column : String) (fk : FilterKind)
        (w : FilterWidgets) (e : String),
        tryFilter t column fk w = Except.error e → filter_dataframe t column fk w = t)
    ∧ (∀ (t : List (String × Col)) (column : String) (ord : SortOrder) (e : String),
        trySort t column ord = Except.error e → sort_dataframe t column ord = t) := by
  constructor
  · intro t column fk w e h
    unfold filter_dataframe
    rw [h]
  · intro t column ord e h
    unfold sort_dataframe
    rw [h]

/-- C10 (witness): a lookup of a missing column raises KeyError and both
helpers return the input unchanged. -/
theorem filter_sort_error_unchanged_witness :
    tryFilter [] "Umur" FilterKind.numeric ⟨0, 0, [], [], ""⟩ = Except.error "KeyError"
    ∧ filter_dataframe [] "Umur" FilterKind.numeric ⟨0, 0, [], [], ""⟩ = []
    ∧ trySort [] "Umur" SortOrder.asc = Except.error "KeyError"
    ∧ sort_dataframe [] "Umur" SortOrder.asc = [] :=
  ⟨rfl,
   filter_sort_error_unchanged.1 [] "Umur" FilterKind.numeric ⟨0, 0, [], [], ""⟩ "KeyError" rfl,
   rfl,
   filter_sort_error_unchanged.2 [] "Umur" SortOrder.asc "KeyError" rfl⟩
